import Mathlib

/-!
Verification development for the terraform-provider-hyperv repository:
a shallow embedding of the VHD/DVD resource handlers
(internal/provider/resource_hyperv_vhd.go, resource_hyperv_dvd.go and
data_source_hyperv_dvd.go) and of the DVD WinRM client
(api/hyperv-winrm/dvd.go), with theorems about the exists-flag logic,
error propagation, validation, the resize follow-up condition and the
frame effect of the VHD read.

The terraform-plugin-sdk ResourceData store is modelled as a partial map
from attribute keys to values; `d.Set` succeeds exactly on keys declared
in the resource's schema (the SDK's "Invalid address to set" semantics)
and every attempted Set is recorded in a trace.  The remote client
(api.Client) is modelled as an oracle giving each client method's
response; every issued client call is recorded in a trace.
-/

deriving instance DecidableEq for Except

namespace TerraformHyperv

/-- Attribute values of the terraform schema types used by these
resources: TypeString, TypeInt and TypeBool. -/
inductive AttrVal where
  | str (s : String)
  | int (i : Int)
  | bool (b : Bool)
deriving DecidableEq

/-- The attribute store of a ResourceData: a partial map from keys. -/
def AttrMap : Type := String → Option AttrVal

/-- The empty attribute store. -/
def emptyAttrs : AttrMap := fun _ => none

/-- Store one attribute (the update part of `d.Set`). -/
def setRaw (m : AttrMap) (k : String) (v : AttrVal) : AttrMap :=
  fun k2 => if k2 = k then some v else m k2

/-- Store a list of attributes in order. -/
def setAll (m : AttrMap) : List (String × AttrVal) → AttrMap
  | [] => m
  | (k, v) :: rest => setAll (setRaw m k v) rest

/-- Go's `d.Get(k).(string)`: the stored string, or the zero value "". -/
def getStr (m : AttrMap) (k : String) : String :=
  match m k with
  | some (.str s) => s
  | _ => ""

/-- Go's `d.Get(k).(int)`: the stored integer, or the zero value 0. -/
def getInt (m : AttrMap) (k : String) : Int :=
  match m k with
  | some (.int i) => i
  | _ => 0

/-- Go's `d.Get(k).(bool)`: the stored boolean, or the zero value false. -/
def getBool (m : AttrMap) (k : String) : Bool :=
  match m k with
  | some (.bool b) => b
  | _ => false

/-- Go's `d.GetOk(k)` for a string attribute: ok is false when the value
is absent or the zero value "". -/
def getOkStr (m : AttrMap) (k : String) : Option String :=
  let s := getStr m k
  if s = "" then none else some s

/-- Go's `uint64(i)` on a terraform int attribute. -/
def uint64 (i : Int) : Nat := (i % (2 : Int) ^ 64).toNat

/-- Go's `uint32(i)` on a terraform int attribute. -/
def uint32 (i : Int) : Nat := (i % (2 : Int) ^ 32).toNat

/-- The ResourceData handed to a CRUD handler: its id, its attribute
store, whether this is a new resource (`d.IsNewResource()`), and the set
of keys for which `d.HasChange` reports a change. -/
structure ResourceData where
  id : String
  attrs : AttrMap
  isNew : Bool
  changed : List String

/-- Go's `d.HasChange(k)`. -/
def ResourceData.hasChange (d : ResourceData) (k : String) : Bool :=
  d.changed.contains k

/-- Keys of the hyperv_dvd data source schema (dataSourceHyperVDvd in
data_source_hyperv_dvd.go): only "path" and "source" are declared. -/
def dataSourceHyperVDvdSchemaKeys : List String := ["path", "source"]

/-- Keys of the hyperv_dvd resource schema (resourceHyperVDvd). -/
def resourceHyperVDvdSchemaKeys : List String := ["path", "ip", "exists"]

/-- Keys of the hyperv_vhd resource schema (resourceHyperVVhd). -/
def resourceHyperVVhdSchemaKeys : List String :=
  ["path", "source", "source_vm", "source_disk", "vhd_type", "parent_path",
   "size", "block_size", "logical_sector_size", "physical_sector_size", "exists"]

/-- A Go error value: its conceptual classification in the spec's error
taxonomy together with its message text. -/
structure GoError where
  kind : String
  msg : String
deriving DecidableEq

/-- A diagnostic as a handler returns it: `diag.FromErr(err)` or
`diag.Errorf(...)`. -/
inductive Diag where
  | fromErr (e : GoError)
  | errorf (msg : String)
deriving DecidableEq

/-- Modelled from the spec: the closed sum type behind the string enum
`vhd_type` (api.VhdType is not among the staged repository files); the
valid literals are Unknown, Fixed, Dynamic and Differencing. -/
inductive VhdType where
  | Unknown
  | Fixed
  | Dynamic
  | Differencing
deriving DecidableEq

/-- Modelled from the spec: the name table api.VhdType_name mapping each
enum value to its user-facing literal. -/
def VhdType_name : VhdType → String
  | .Unknown => "Unknown"
  | .Fixed => "Fixed"
  | .Dynamic => "Dynamic"
  | .Differencing => "Differencing"

/-- Modelled from the spec: api.ToVhdType, the decode table from the
user-facing literal to the enum; an unknown literal maps to the zero
value Unknown. -/
def ToVhdType (s : String) : VhdType :=
  if s = "Fixed" then .Fixed
  else if s = "Dynamic" then .Dynamic
  else if s = "Differencing" then .Differencing
  else .Unknown

/-- The api.Vhd result structure, with the fields the VHD read handler
consumes (vhd.Path, vhd.VhdType, vhd.ParentPath, vhd.Size, vhd.BlockSize,
vhd.LogicalSectorSize, vhd.PhysicalSectorSize). -/
structure Vhd where
  Path : String
  VhdType : VhdType
  ParentPath : String
  Size : Nat
  BlockSize : Nat
  LogicalSectorSize : Nat
  PhysicalSectorSize : Nat
deriving DecidableEq

/-- The api.VhdExists result structure consumed by the VHD create
handler (existing.Exists). -/
structure VhdExists where
  Exists : Bool
deriving DecidableEq

/-- The api.Dvd result structure (api/provider.go part of the staged
sources): Path and Ip. -/
structure Dvd where
  Path : String
  Ip : String
deriving DecidableEq

/-- The remote client (api.Client) as an oracle: the response each
client method would return if called during the operation. -/
structure Client where
  getVhdResp : Except GoError Vhd
  vhdExistsResp : Except GoError VhdExists
  createOrUpdateVhdResp : Option GoError
  resizeVhdResp : Option GoError
  deleteVhdResp : Option GoError
  createDvdResp : Option GoError
  getDvdResp : Except GoError Dvd
  deleteDvdResp : Option GoError
deriving DecidableEq

/-- One issued client call, with its arguments. -/
inductive Call where
  | getVhd (path : String)
  | vhdExists (path : String)
  | createOrUpdateVhd (path source sourceVm : String) (sourceDisk : Int)
      (vhdType : VhdType) (parentPath : String)
      (size blockSize logicalSectorSize physicalSectorSize : Nat)
  | resizeVhd (path : String) (size : Nat)
  | deleteVhd (path : String)
  | createDvd (path ip : String)
  | getDvd (path ip : String)
  | deleteDvd (path : String)
deriving DecidableEq

/-- Whether a call is the CreateOrUpdateVhd client call. -/
def Call.isCreateOrUpdateVhd : Call → Bool
  | .createOrUpdateVhd .. => true
  | _ => false

/-- Whether a call is the ResizeVhd client call. -/
def Call.isResizeVhd : Call → Bool
  | .resizeVhd .. => true
  | _ => false

/-- The oracle's response for a given call: none when the client method
would succeed, some error otherwise. -/
def callResp (c : Client) : Call → Option GoError
  | .getVhd _ => match c.getVhdResp with | .ok _ => none | .error e => some e
  | .vhdExists _ => match c.vhdExistsResp with | .ok _ => none | .error e => some e
  | .createOrUpdateVhd .. => c.createOrUpdateVhdResp
  | .resizeVhd .. => c.resizeVhdResp
  | .deleteVhd _ => c.deleteVhdResp
  | .createDvd .. => c.createDvdResp
  | .getDvd .. => match c.getDvdResp with | .ok _ => none | .error e => some e
  | .deleteDvd _ => c.deleteDvdResp

/-- Outcome of one handler execution: the returned diagnostics (none =
nil), the final ResourceData, the client calls issued in order, and the
`d.Set` calls attempted in order. -/
structure OpResult where
  diags : Option Diag
  d : ResourceData
  calls : List Call
  sets : List (String × AttrVal)

/-- The SDK's `d.Set(k, v)`: succeeds exactly when k is declared in the
resource's schema, otherwise returns the schema-store error. -/
def schemaSet (schema : List String) (m : AttrMap) (k : String) (v : AttrVal) :
    Except GoError AttrMap :=
  if k ∈ schema then .ok (setRaw m k v)
  else .error ⟨"SchemaSetError", "Invalid address to set: " ++ k⟩

/-- Run a sequence of `d.Set` calls the way the handlers do: each
`if err := d.Set(k, v); err != nil { return diag.FromErr(err) }` in
order, stopping at the first failure. -/
def runSets (schema : List String) (st : OpResult) :
    List (String × AttrVal) → OpResult
  | [] => st
  | (k, v) :: rest =>
    match schemaSet schema st.d.attrs k v with
    | .error e =>
      { st with diags := some (.fromErr e), sets := st.sets ++ [(k, v)] }
    | .ok m =>
      runSets schema
        { st with d := { st.d with attrs := m }, sets := st.sets ++ [(k, v)] } rest

/-! ## The DVD data-source read (data_source_hyperv_dvd.go) -/

/-- The Set sequence of datasourceHyperVDvdRead after a successful
GetVhd lookup: Set "path"; then, when the returned Path is non-empty,
Set "exists" false, else Set "exists" true.  The source tests
`vhd.Path != ""` with the exists=false branch first; the branches are
written here under the positive test, swapped accordingly. -/
def datasourceDvdReadSetList (vhd : Vhd) : List (String × AttrVal) :=
  [("path", .str vhd.Path),
   ("exists", if vhd.Path = "" then .bool true else .bool false)]

/-- datasourceHyperVDvdRead: require the path argument via GetOk, call
GetVhd, store path and the exists flag, then SetId. -/
def datasourceHyperVDvdRead (c : Client) (d : ResourceData) : OpResult :=
  match getOkStr d.attrs "path" with
  | none => ⟨some (.errorf "[ERROR][hyperv][read] path argument is required"), d, [], []⟩
  | some path =>
    match c.getVhdResp with
    | .error e => ⟨some (.fromErr e), d, [.getVhd path], []⟩
    | .ok vhd =>
      let st := runSets dataSourceHyperVDvdSchemaKeys ⟨none, d, [.getVhd path], []⟩
        (datasourceDvdReadSetList vhd)
      if st.diags = none then { st with d := { st.d with id := path } } else st

/-! ## The hyperv_dvd resource handlers (resource part of
data_source_hyperv_dvd.go's package) -/

/-- resourceHyperVDvdCreate: read path and ip with Get, call CreateDvd,
on success SetId(path). -/
def resourceHyperVDvdCreate (c : Client) (d : ResourceData) : OpResult :=
  let path := getStr d.attrs "path"
  let ip := getStr d.attrs "ip"
  match c.createDvdResp with
  | some e => ⟨some (.fromErr e), d, [.createDvd path ip], []⟩
  | none => ⟨none, { d with id := path }, [.createDvd path ip], []⟩

/-- The Set sequence of resourceHyperVDvdRead after a successful GetDvd
lookup: Set "path"; then, when the returned Path is empty, Set "exists"
false, else Set "exists" true. -/
def resourceDvdReadSetList (dvd : Dvd) : List (String × AttrVal) :=
  [("path", .str dvd.Path),
   ("exists", if dvd.Path = "" then .bool false else .bool true)]

/-- resourceHyperVDvdRead: path from d.Id(), ip from Get, call GetDvd,
store path and the exists flag. -/
def resourceHyperVDvdRead (c : Client) (d : ResourceData) : OpResult :=
  let path := d.id
  let ip := getStr d.attrs "ip"
  match c.getDvdResp with
  | .error e => ⟨some (.fromErr e), d, [.getDvd path ip], []⟩
  | .ok dvd =>
    runSets resourceHyperVDvdSchemaKeys ⟨none, d, [.getDvd path ip], []⟩
      (resourceDvdReadSetList dvd)

/-- resourceHyperVDvdDelete: path from d.Id(), call DeleteDvd. -/
def resourceHyperVDvdDelete (c : Client) (d : ResourceData) : OpResult :=
  let path := d.id
  match c.deleteDvdResp with
  | some e => ⟨some (.fromErr e), d, [.deleteDvd path], []⟩
  | none => ⟨none, d, [.deleteDvd path], []⟩

/-! ## The hyperv_vhd resource handlers (resource_hyperv_vhd.go) -/

/-- The Set sequence of resourceHyperVVhdRead after a successful GetVhd
lookup: Set "path"; the exists flag (false exactly when the returned
Path is empty); Set "vhd_type"; then for a Differencing disk only
"parent_path", otherwise the four size attributes. -/
def vhdReadSetList (vhd : Vhd) : List (String × AttrVal) :=
  [("path", .str vhd.Path),
   ("exists", if vhd.Path = "" then .bool false else .bool true),
   ("vhd_type", .str (VhdType_name vhd.VhdType))] ++
  (if vhd.VhdType = .Differencing then
     [("parent_path", .str vhd.ParentPath)]
   else
     [("size", .int (vhd.Size : Int)),
      ("block_size", .int (vhd.BlockSize : Int)),
      ("logical_sector_size", .int (vhd.LogicalSectorSize : Int)),
      ("physical_sector_size", .int (vhd.PhysicalSectorSize : Int))])

/-- resourceHyperVVhdRead: path from d.Id(), call GetVhd, store the
attributes per vhdReadSetList. -/
def resourceHyperVVhdRead (c : Client) (d : ResourceData) : OpResult :=
  let path := d.id
  match c.getVhdResp with
  | .error e => ⟨some (.fromErr e), d, [.getVhd path], []⟩
  | .ok vhd =>
    runSets resourceHyperVVhdSchemaKeys ⟨none, d, [.getVhd path], []⟩
      (vhdReadSetList vhd)

/-- The error wrapping of the VhdExists failure branch of
resourceHyperVVhdCreate: fmt.Errorf("checking for existing %s: %+v",
path, err) keeps the original diagnostic text, so the conceptual
classification is unchanged. -/
def wrapCheckingExisting (path : String) (e : GoError) : GoError :=
  ⟨e.kind, "checking for existing " ++ path ++ ": " ++ e.msg⟩

/-- The error of the already-exists branch of resourceHyperVVhdCreate
(a locally constructed fmt.Errorf, not a client error). -/
def alreadyExistsError (path : String) : GoError :=
  ⟨"ResourceAlreadyExists",
   "A resource with the ID " ++ path ++
     " already exists - to be managed via Terraform this resource needs to be imported into the State."⟩

/-- The CreateOrUpdateVhd call as resourceHyperVVhdCreate and
resourceHyperVVhdUpdate assemble it from the attribute store. -/
def createOrUpdateVhdCall (d : ResourceData) (path : String) : Call :=
  .createOrUpdateVhd path (getStr d.attrs "source") (getStr d.attrs "source_vm")
    (getInt d.attrs "source_disk") (ToVhdType (getStr d.attrs "vhd_type"))
    (getStr d.attrs "parent_path") (uint64 (getInt d.attrs "size"))
    (uint32 (getInt d.attrs "block_size"))
    (uint32 (getInt d.attrs "logical_sector_size"))
    (uint32 (getInt d.attrs "physical_sector_size"))

/-- The tail of resourceHyperVVhdCreate after the mutating calls:
d.SetId(path) followed by `return resourceHyperVVhdRead(...)`. -/
def vhdCreateFinish (c : Client) (d : ResourceData) (path : String)
    (calls : List Call) : OpResult :=
  let r := resourceHyperVVhdRead c { d with id := path }
  { r with calls := calls ++ r.calls }

/-- The body of resourceHyperVVhdCreate after the IsNewResource guard:
CreateOrUpdateVhd, then ResizeVhd when size > 0 and parent_path is
empty, then SetId and the read. -/
def vhdCreateBody (c : Client) (d : ResourceData) (path : String)
    (calls0 : List Call) : OpResult :=
  let parentPath := getStr d.attrs "parent_path"
  let size := uint64 (getInt d.attrs "size")
  let createCall := createOrUpdateVhdCall d path
  match c.createOrUpdateVhdResp with
  | some e => ⟨some (.fromErr e), d, calls0 ++ [createCall], []⟩
  | none =>
    if 0 < size ∧ parentPath = "" then
      match c.resizeVhdResp with
      | some e =>
        ⟨some (.fromErr e), d, calls0 ++ [createCall, .resizeVhd path size], []⟩
      | none => vhdCreateFinish c d path (calls0 ++ [createCall, .resizeVhd path size])
    else
      vhdCreateFinish c d path (calls0 ++ [createCall])

/-- resourceHyperVVhdCreate: require path via GetOk; for a new resource
first check VhdExists and refuse to create over an existing vhd; then
the create body. -/
def resourceHyperVVhdCreate (c : Client) (d : ResourceData) : OpResult :=
  match getOkStr d.attrs "path" with
  | none => ⟨some (.errorf "[ERROR][hyperv][create] path argument is required"), d, [], []⟩
  | some path =>
    if d.isNew then
      match c.vhdExistsResp with
      | .error e =>
        ⟨some (.fromErr (wrapCheckingExisting path e)), d, [.vhdExists path], []⟩
      | .ok existing =>
        if existing.Exists then
          ⟨some (.fromErr (alreadyExistsError path)), d, [.vhdExists path], []⟩
        else
          vhdCreateBody c d path [.vhdExists path]
    else
      vhdCreateBody c d path []

/-- The second half of resourceHyperVVhdUpdate: ResizeVhd when size > 0,
parent_path is empty, and the vhd does not exist or size changed; then
the read (the source inlines this after the conditional create). -/
def vhdUpdateResizeAndRead (c : Client) (d : ResourceData) (calls1 : List Call) :
    OpResult :=
  let path := d.id
  let parentPath := getStr d.attrs "parent_path"
  let size := uint64 (getInt d.attrs "size")
  let existsAttr := getBool d.attrs "exists"
  if 0 < size ∧ parentPath = "" then
    if !existsAttr || d.hasChange "size" then
      match c.resizeVhdResp with
      | some e => ⟨some (.fromErr e), d, calls1 ++ [.resizeVhd path size], []⟩
      | none =>
        let r := resourceHyperVVhdRead c d
        { r with calls := calls1 ++ [.resizeVhd path size] ++ r.calls }
    else
      let r := resourceHyperVVhdRead c d
      { r with calls := calls1 ++ r.calls }
  else
    let r := resourceHyperVVhdRead c d
    { r with calls := calls1 ++ r.calls }

/-- resourceHyperVVhdUpdate: CreateOrUpdateVhd when the vhd does not
exist or path/source/source_vm/source_disk/parent_path changed; then
the resize-and-read tail. -/
def resourceHyperVVhdUpdate (c : Client) (d : ResourceData) : OpResult :=
  let path := d.id
  let existsAttr := getBool d.attrs "exists"
  let createCall := createOrUpdateVhdCall d path
  if !existsAttr || d.hasChange "path" || d.hasChange "source" ||
      d.hasChange "source_vm" || d.hasChange "source_disk" ||
      d.hasChange "parent_path" then
    match c.createOrUpdateVhdResp with
    | some e => ⟨some (.fromErr e), d, [createCall], []⟩
    | none => vhdUpdateResizeAndRead c d [createCall]
  else
    vhdUpdateResizeAndRead c d []

/-- resourceHyperVVhdDelete: path from d.Id(), call DeleteVhd. -/
def resourceHyperVVhdDelete (c : Client) (d : ResourceData) : OpResult :=
  let path := d.id
  match c.deleteVhdResp with
  | some e => ⟨some (.fromErr e), d, [.deleteVhd path], []⟩
  | none => ⟨none, d, [.deleteVhd path], []⟩

/-! ## The DVD WinRM client (api/hyperv-winrm/dvd.go) and the runner
and decoder it is built on -/

/-- Whitespace trim, implemented structurally on the character list. -/
def trimString (s : String) : String :=
  ⟨((s.data.dropWhile Char.isWhitespace).reverse.dropWhile Char.isWhitespace).reverse⟩

/-- Strip one layer of surrounding double quotes from a trimmed token. -/
def unquote (s : String) : String :=
  let t := trimString s
  if 2 ≤ t.length && t.startsWith "\"" && t.endsWith "\"" then
    (t.drop 1).dropRight 1
  else t

/-- Split one `key:value` fragment at its first colon (the key holds no
colon; the value may). -/
def splitKV (fragment : String) : String × String :=
  match fragment.splitOn ":" with
  | [] => ("", "")
  | k :: rest => (k, String.intercalate ":" rest)

/-- Modelled from the spec: the Result Decoder (§4.4) of the WinRM
client, whose implementation is not among the staged repository files,
instantiated at the api.Dvd result type.  Stdout that is exactly the
empty-object marker, or empty/whitespace-only, decodes to the zero value
with no error; a braced flat payload of string fields populates the
fields, matching payload keys case-insensitively (string values holding
a comma are outside this model); anything else is a DecodeFailure
carrying the raw payload. -/
def decodeDvd (stdout : String) : Except GoError Dvd :=
  let t := trimString stdout
  if t = "" ∨ t = "\x7b\x7d" then .ok ⟨"", ""⟩
  else if t.startsWith "\x7b" && t.endsWith "\x7d" then
    let pairs := (((t.drop 1).dropRight 1).splitOn ",").map splitKV
    let field := fun (k : String) =>
      match pairs.find? (fun p => (unquote p.1).toLower = k) with
      | some p => unquote p.2
      | none => ""
    .ok ⟨field "path", field "ip"⟩
  else .error ⟨"DecodeFailure", "unparseable result payload: " ++ stdout⟩

/-- The JSON payload the GetDvd lookup script emits for an existing
path (ConvertTo-Json of a table with entries Path=$path and Ip=$ip), in
the flat one-line form the decoder model reads. -/
def dvdJson (path ip : String) : String :=
  "\x7b\"Path\":\"" ++ path ++ "\",\"Ip\":\"" ++ ip ++ "\"\x7d"

/-- Stdout of the GetDvd lookup script (getDvdTemplate in
api/hyperv-winrm/dvd.go): the dvd JSON when Test-Path finds the path,
the literal empty-object marker otherwise. -/
def getDvdScriptOutput (pathFound : Bool) (path ip : String) : String :=
  if pathFound then dvdJson path ip else "\x7b\x7d"

/-- One invocation of a script runner, by template name. -/
inductive RunnerCall where
  | fireAndForget (templateName : String)
  | withResult (templateName : String)
deriving DecidableEq

/-- The WinRM transport/executor as an oracle: the outcome a
fire-and-forget run would have, and the captured stdout (or the
transport/script error) a result-bearing run would have. -/
structure WinRmClient where
  fireAndForgetResult : Option GoError
  scriptStdout : Except GoError String

/-- Modelled from the spec: the Fire-and-Forget Runner (§4.5),
RunFireAndForgetScript: render and execute, return only the error value,
no decoding attempted. -/
def RunFireAndForgetScript (w : WinRmClient) (templateName : String) :
    Option GoError × List RunnerCall :=
  (w.fireAndForgetResult, [.fireAndForget templateName])

/-- Modelled from the spec: the Script Executor (§4.3),
RunScriptWithResult at the api.Dvd result type: render and execute, then
hand the captured stdout to the Result Decoder. -/
def RunScriptWithResult (w : WinRmClient) (templateName : String) :
    Except GoError Dvd × List RunnerCall :=
  (match w.scriptStdout with
   | .error e => .error e
   | .ok out => decodeDvd out,
   [.withResult templateName])

/-- CreateDvd (api/hyperv-winrm/dvd.go): a fire-and-forget run of the
CreateDvd template; only an error value is returned. -/
def CreateDvd (w : WinRmClient) (_path _ip : String) :
    Option GoError × List RunnerCall :=
  RunFireAndForgetScript w "CreateDvd"

/-- GetDvd (api/hyperv-winrm/dvd.go): a result-bearing run of the
GetDvd template, decoding the captured output into an api.Dvd. -/
def GetDvd (w : WinRmClient) (_path _ip : String) :
    Except GoError Dvd × List RunnerCall :=
  RunScriptWithResult w "GetDvd"

/-- DeleteDvd (api/hyperv-winrm/dvd.go): a fire-and-forget run of the
DeleteDvd template; only an error value is returned. -/
def DeleteDvd (w : WinRmClient) (_path : String) :
    Option GoError × List RunnerCall :=
  RunFireAndForgetScript w "DeleteDvd"

/-! ## Helper lemmas -/

/-- When every key of the list is declared, the Set sequence succeeds:
no diagnostics, the attributes updated in order, the attempts traced. -/
theorem runSets_ok (schema : List String) (st : OpResult)
    (l : List (String × AttrVal)) (h : ∀ p ∈ l, p.1 ∈ schema) :
    runSets schema st l =
      { st with d := { st.d with attrs := setAll st.d.attrs l },
                sets := st.sets ++ l } := by
  induction l generalizing st with
  | nil => simp [runSets, setAll]
  | cons p rest ih =>
    obtain ⟨k, v⟩ := p
    have hk : k ∈ schema := h (k, v) (by simp)
    rw [runSets, schemaSet, if_pos hk]
    dsimp only
    rw [ih _ (fun q hq => h q (by simp [hq]))]
    simp [setAll]

/-- Every key the VHD read sets is declared in the hyperv_vhd schema. -/
theorem vhdReadSetList_declared (vhd : Vhd) :
    ∀ p ∈ vhdReadSetList vhd, p.1 ∈ resourceHyperVVhdSchemaKeys := by
  intro p hp
  rcases vhd with ⟨P, T, PP, S, B, L, PH⟩
  by_cases h1 : P = "" <;> by_cases h2 : T = VhdType.Differencing <;>
    simp [vhdReadSetList, h1, h2] at hp <;>
    rcases hp with rfl|rfl|rfl|rfl|rfl|rfl|rfl <;>
    simp [resourceHyperVVhdSchemaKeys]

/-- Characterization of the VHD read when the lookup succeeds. -/
theorem vhdRead_ok (c : Client) (d : ResourceData) (vhd : Vhd)
    (h : c.getVhdResp = .ok vhd) :
    resourceHyperVVhdRead c d =
      ⟨none, { d with attrs := setAll d.attrs (vhdReadSetList vhd) },
       [.getVhd d.id], vhdReadSetList vhd⟩ := by
  rw [resourceHyperVVhdRead, h]
  dsimp only
  rw [runSets_ok _ _ _ (vhdReadSetList_declared vhd)]
  rfl

/-- Every key the DVD resource read sets is declared in the hyperv_dvd
schema. -/
theorem resourceDvdReadSetList_declared (dvd : Dvd) :
    ∀ p ∈ resourceDvdReadSetList dvd, p.1 ∈ resourceHyperVDvdSchemaKeys := by
  intro p hp
  by_cases h1 : dvd.Path = "" <;>
    simp [resourceDvdReadSetList, h1] at hp <;>
    rcases hp with rfl|rfl <;>
    simp [resourceHyperVDvdSchemaKeys]

/-- Characterization of the DVD resource read when the lookup
succeeds. -/
theorem dvdRead_ok (c : Client) (d : ResourceData) (dvd : Dvd)
    (h : c.getDvdResp = .ok dvd) :
    resourceHyperVDvdRead c d =
      ⟨none, { d with attrs := setAll d.attrs (resourceDvdReadSetList dvd) },
       [.getDvd d.id (getStr d.attrs "ip")], resourceDvdReadSetList dvd⟩ := by
  rw [resourceHyperVDvdRead, h]
  dsimp only
  rw [runSets_ok _ _ _ (resourceDvdReadSetList_declared dvd)]
  rfl

/-- Characterization of the DVD data-source read when the lookup
succeeds: the path Set succeeds, the exists Set hits the undeclared key
and the handler returns the schema-store error. -/
theorem datasourceDvdRead_ok (c : Client) (d : ResourceData) (p : String) (vhd : Vhd)
    (hp : getOkStr d.attrs "path" = some p) (h : c.getVhdResp = .ok vhd) :
    datasourceHyperVDvdRead c d =
      ⟨some (.fromErr ⟨"SchemaSetError", "Invalid address to set: exists"⟩),
       { d with attrs := setRaw d.attrs "path" (.str vhd.Path) },
       [.getVhd p],
       datasourceDvdReadSetList vhd⟩ := by
  rw [datasourceHyperVDvdRead, hp, h]
  dsimp only
  by_cases hP : vhd.Path = ""
  · simp only [datasourceDvdReadSetList, hP]
    simp [runSets, schemaSet, dataSourceHyperVDvdSchemaKeys]
  · simp only [datasourceDvdReadSetList, if_neg hP]
    simp [runSets, schemaSet, dataSourceHyperVDvdSchemaKeys]

/-! ## Sample data for witnesses and counterexamples -/

/-- A populated vhd lookup result. -/
def sampleVhd : Vhd := ⟨"C:\\data\\disk.vhdx", .Dynamic, "", 4096, 0, 0, 0⟩

/-- The zero-value vhd lookup result (lookup of an absent path). -/
def emptyVhd : Vhd := ⟨"", .Unknown, "", 0, 0, 0, 0⟩

/-- A differencing-disk lookup result. -/
def diffVhd : Vhd := ⟨"C:\\data\\disk.vhdx", .Differencing, "C:\\data\\parent.vhdx", 0, 0, 0, 0⟩

/-- A populated dvd lookup result. -/
def sampleDvd : Dvd := ⟨"C:\\data\\disk.iso", "10.0.0.1"⟩

/-- The zero-value dvd lookup result. -/
def emptyDvd : Dvd := ⟨"", ""⟩

/-- A client oracle whose calls all succeed, with populated lookups. -/
def okClient : Client :=
  ⟨.ok sampleVhd, .ok ⟨false⟩, none, none, none, none, .ok sampleDvd, none⟩

/-- A client oracle whose lookups return the zero value. -/
def absentClient : Client :=
  ⟨.ok emptyVhd, .ok ⟨false⟩, none, none, none, none, .ok emptyDvd, none⟩

/-- A ResourceData with a populated path attribute. -/
def baseData : ResourceData :=
  ⟨"C:\\data\\disk.vhdx",
   setAll emptyAttrs [("path", .str "C:\\data\\disk.vhdx"), ("size", .int 4096)],
   true, []⟩

/-- A ResourceData with no attributes at all. -/
def blankData : ResourceData := ⟨"", emptyAttrs, true, []⟩

/-! ## The claims -/

/-- C1: the DVD data-source read (datasourceHyperVDvdRead in
data_source_hyperv_dvd.go) inverts the exists-flag logic relative to
the VHD read: whenever its GetVhd lookup returns a result, it sets
exists=false exactly when the returned Path is non-empty, and
exists=true exactly when the returned Path is empty. -/
theorem datasource_dvd_read_inverts_exists_flag
    (c : Client) (d : ResourceData) (p : String) (vhd : Vhd)
    (hp : getOkStr d.attrs "path" = some p) (h : c.getVhdResp = .ok vhd) :
    ((("exists", AttrVal.bool false) ∈ (datasourceHyperVDvdRead c d).sets ↔
        vhd.Path ≠ "") ∧
     (("exists", AttrVal.bool true) ∈ (datasourceHyperVDvdRead c d).sets ↔
        vhd.Path = "")) := by
  rw [datasourceDvdRead_ok c d p vhd hp h]
  by_cases hP : vhd.Path = "" <;>
    simp [datasourceDvdReadSetList, hP]

/-- Witness for C1: at a concrete client whose lookup returns a
populated result, the data-source read records the Set of exists=false
even though the path was found. -/
theorem datasource_dvd_read_inverts_exists_flag_witness :
    (("exists", AttrVal.bool false) ∈ (datasourceHyperVDvdRead okClient baseData).sets ↔
        sampleVhd.Path ≠ "") ∧
    (("exists", AttrVal.bool true) ∈ (datasourceHyperVDvdRead okClient baseData).sets ↔
        sampleVhd.Path = "") :=
  datasource_dvd_read_inverts_exists_flag okClient baseData
    "C:\\data\\disk.vhdx" sampleVhd (by decide) rfl

/-- C3: the hyperv_dvd data-source schema declares only "path" and
"source"; whenever the lookup succeeds the read attempts to set the
undeclared attribute "exists", and under the schema-store semantics the
read never completes without returning an error diagnostic. -/
theorem datasource_dvd_read_always_errors :
    ("exists" ∉ dataSourceHyperVDvdSchemaKeys) ∧
    (∀ (c : Client) (d : ResourceData) (p : String) (vhd : Vhd),
       getOkStr d.attrs "path" = some p → c.getVhdResp = .ok vhd →
       ∃ v, ("exists", v) ∈ (datasourceHyperVDvdRead c d).sets) ∧
    (∀ (c : Client) (d : ResourceData),
       (datasourceHyperVDvdRead c d).diags.isSome = true) := by
  refine ⟨by decide, ?_, ?_⟩
  · intro c d p vhd hp h
    rw [datasourceDvdRead_ok c d p vhd hp h]
    by_cases hP : vhd.Path = ""
    · exact ⟨.bool true, by simp [datasourceDvdReadSetList, hP]⟩
    · exact ⟨.bool false, by simp [datasourceDvdReadSetList, hP]⟩
  · intro c d
    rw [datasourceHyperVDvdRead]
    rcases hgo : getOkStr d.attrs "path" with _ | p
    · rfl
    · rcases h : c.getVhdResp with e | vhd
      · rfl
      · have := datasourceDvdRead_ok c d p vhd hgo h
        rw [datasourceHyperVDvdRead, hgo, h] at this
        rw [this]
        rfl

/-- Witness for C3: at a concrete client and store, the data-source
read attempts to set "exists" and returns an error diagnostic. -/
theorem datasource_dvd_read_always_errors_witness :
    (∃ v, ("exists", v) ∈ (datasourceHyperVDvdRead okClient baseData).sets) ∧
    (datasourceHyperVDvdRead okClient baseData).diags.isSome = true :=
  ⟨datasource_dvd_read_always_errors.2.1 okClient baseData
      "C:\\data\\disk.vhdx" sampleVhd (by decide) rfl,
   datasource_dvd_read_always_errors.2.2 okClient baseData⟩

/-- A client oracle whose vhd lookup returns a differencing disk. -/
def diffClient : Client :=
  ⟨.ok diffVhd, .ok ⟨false⟩, none, none, none, none, .ok sampleDvd, none⟩

/-- C2: for every successful resource-level read (resourceHyperVVhdRead
and resourceHyperVDvdRead), the read returns no error and stores
exists=true exactly when the returned result's Path is non-empty; in
particular a zero-value lookup result reports exists=false with no
error. -/
theorem resource_reads_exists_iff_path_nonempty :
    (∀ (c : Client) (d : ResourceData) (vhd : Vhd), c.getVhdResp = .ok vhd →
       (resourceHyperVVhdRead c d).diags = none ∧
       (getBool (resourceHyperVVhdRead c d).d.attrs "exists" = true ↔ vhd.Path ≠ "")) ∧
    (∀ (c : Client) (d : ResourceData) (dvd : Dvd), c.getDvdResp = .ok dvd →
       (resourceHyperVDvdRead c d).diags = none ∧
       (getBool (resourceHyperVDvdRead c d).d.attrs "exists" = true ↔ dvd.Path ≠ "")) := by
  constructor
  · intro c d vhd h
    rw [vhdRead_ok c d vhd h]
    refine ⟨rfl, ?_⟩
    by_cases hP : vhd.Path = "" <;>
      by_cases hT : vhd.VhdType = VhdType.Differencing <;>
      simp [vhdReadSetList, hP, hT, setAll, setRaw, getBool]
  · intro c d dvd h
    rw [dvdRead_ok c d dvd h]
    refine ⟨rfl, ?_⟩
    by_cases hP : dvd.Path = "" <;>
      simp [resourceDvdReadSetList, hP, setAll, setRaw, getBool]

/-- Witness for C2: lookups returning the zero value make both resource
reads report exists=false with no error. -/
theorem resource_reads_exists_iff_path_nonempty_witness :
    ((resourceHyperVVhdRead absentClient baseData).diags = none ∧
     (getBool (resourceHyperVVhdRead absentClient baseData).d.attrs "exists" = true ↔
        emptyVhd.Path ≠ "")) ∧
    ((resourceHyperVDvdRead absentClient baseData).diags = none ∧
     (getBool (resourceHyperVDvdRead absentClient baseData).d.attrs "exists" = true ↔
        emptyDvd.Path ≠ "")) :=
  ⟨resource_reads_exists_iff_path_nonempty.1 absentClient baseData emptyVhd rfl,
   resource_reads_exists_iff_path_nonempty.2 absentClient baseData emptyDvd rfl⟩

/-- C10: on a successful VHD read, path, exists and vhd_type are always
stored; for a Differencing result only parent_path is stored among the
disk-geometry attributes and the four size attributes keep their prior
values; otherwise the four size attributes are stored and parent_path
keeps its prior value. -/
theorem vhd_read_frame_effect (c : Client) (d : ResourceData) (vhd : Vhd)
    (h : c.getVhdResp = .ok vhd) :
    ((resourceHyperVVhdRead c d).d.attrs "path" = some (.str vhd.Path)) ∧
    ((resourceHyperVVhdRead c d).d.attrs "exists" =
       some (.bool (if vhd.Path = "" then false else true))) ∧
    ((resourceHyperVVhdRead c d).d.attrs "vhd_type" =
       some (.str (VhdType_name vhd.VhdType))) ∧
    (vhd.VhdType = VhdType.Differencing →
       (resourceHyperVVhdRead c d).d.attrs "parent_path" = some (.str vhd.ParentPath) ∧
       (resourceHyperVVhdRead c d).d.attrs "size" = d.attrs "size" ∧
       (resourceHyperVVhdRead c d).d.attrs "block_size" = d.attrs "block_size" ∧
       (resourceHyperVVhdRead c d).d.attrs "logical_sector_size" = d.attrs "logical_sector_size" ∧
       (resourceHyperVVhdRead c d).d.attrs "physical_sector_size" = d.attrs "physical_sector_size") ∧
    (vhd.VhdType ≠ VhdType.Differencing →
       (resourceHyperVVhdRead c d).d.attrs "size" = some (.int (vhd.Size : Int)) ∧
       (resourceHyperVVhdRead c d).d.attrs "block_size" = some (.int (vhd.BlockSize : Int)) ∧
       (resourceHyperVVhdRead c d).d.attrs "logical_sector_size" = some (.int (vhd.LogicalSectorSize : Int)) ∧
       (resourceHyperVVhdRead c d).d.attrs "physical_sector_size" = some (.int (vhd.PhysicalSectorSize : Int)) ∧
       (resourceHyperVVhdRead c d).d.attrs "parent_path" = d.attrs "parent_path") := by
  rw [vhdRead_ok c d vhd h]
  by_cases hP : vhd.Path = "" <;>
    by_cases hT : vhd.VhdType = VhdType.Differencing <;>
    simp [vhdReadSetList, hP, hT, setAll, setRaw]

/-- Witness for C10: a differencing-disk read stores parent_path and
leaves the size attribute untouched. -/
theorem vhd_read_frame_effect_witness :
    ((resourceHyperVVhdRead diffClient baseData).d.attrs "size" = baseData.attrs "size" ∧
     (resourceHyperVVhdRead diffClient baseData).d.attrs "parent_path" =
       some (.str diffVhd.ParentPath)) := by
  have h := vhd_read_frame_effect diffClient baseData diffVhd rfl
  exact ⟨(h.2.2.2.1 rfl).2.1, (h.2.2.2.1 rfl).1⟩

/-- C5: GetDvd for a path the remote host does not have yields the
zero-value Dvd with no error: the lookup script emits exactly the
empty-object marker in that case, and decoding the marker or empty
stdout produces the zero value without error. -/
theorem getDvd_absent_path_zero_value (path ip : String) :
    getDvdScriptOutput false path ip = "\x7b\x7d" ∧
    (GetDvd ⟨none, .ok (getDvdScriptOutput false path ip)⟩ path ip).1 = .ok ⟨"", ""⟩ ∧
    decodeDvd "\x7b\x7d" = .ok ⟨"", ""⟩ ∧
    decodeDvd "" = .ok ⟨"", ""⟩ := by
  refine ⟨rfl, ?_, by decide, by decide⟩
  have h : getDvdScriptOutput false path ip = "\x7b\x7d" := rfl
  simp only [GetDvd, RunScriptWithResult, h]
  decide

/-- C8: CreateDvd and DeleteDvd run through the fire-and-forget runner
and return only the runner's error value, while GetDvd runs through the
result-bearing runner and decodes the captured output into a Dvd. -/
theorem dvd_client_runner_usage :
    (∀ (w : WinRmClient) (path ip : String),
       (CreateDvd w path ip).2 = [.fireAndForget "CreateDvd"] ∧
       (CreateDvd w path ip).1 = w.fireAndForgetResult) ∧
    (∀ (w : WinRmClient) (path : String),
       (DeleteDvd w path).2 = [.fireAndForget "DeleteDvd"] ∧
       (DeleteDvd w path).1 = w.fireAndForgetResult) ∧
    (∀ (w : WinRmClient) (path ip : String),
       (GetDvd w path ip).2 = [.withResult "GetDvd"] ∧
       ∀ out, w.scriptStdout = .ok out → (GetDvd w path ip).1 = decodeDvd out) := by
  refine ⟨fun w path ip => ⟨rfl, rfl⟩, fun w path => ⟨rfl, rfl⟩,
    fun w path ip => ⟨rfl, ?_⟩⟩
  intro out h
  simp [GetDvd, RunScriptWithResult, h]

/-- Witness for C8: at a concrete captured output, GetDvd's result is
the decode of that output. -/
theorem dvd_client_runner_usage_witness :
    (GetDvd ⟨none, .ok "\x7b\x7d"⟩ "C:\\data\\disk.iso" "10.0.0.1").1 =
      decodeDvd "\x7b\x7d" :=
  (dvd_client_runner_usage.2.2 ⟨none, .ok "\x7b\x7d"⟩ "C:\\data\\disk.iso"
    "10.0.0.1").2 "\x7b\x7d" rfl

/-- C7: with the required path argument absent or unset, the VHD create
and the DVD data-source read return the validation error before any
client call is issued. -/
theorem missing_path_validation (c : Client) (d : ResourceData)
    (h : getStr d.attrs "path" = "") :
    (resourceHyperVVhdCreate c d).diags =
        some (.errorf "[ERROR][hyperv][create] path argument is required") ∧
    (resourceHyperVVhdCreate c d).calls = [] ∧
    (datasourceHyperVDvdRead c d).diags =
        some (.errorf "[ERROR][hyperv][read] path argument is required") ∧
    (datasourceHyperVDvdRead c d).calls = [] := by
  have hget : getOkStr d.attrs "path" = none := by simp [getOkStr, h]
  rw [resourceHyperVVhdCreate, datasourceHyperVDvdRead, hget]
  exact ⟨rfl, rfl, rfl, rfl⟩

/-- Witness for C7: with an empty store, neither operation issues a
client call. -/
theorem missing_path_validation_witness :
    (resourceHyperVVhdCreate okClient blankData).calls = [] ∧
    (datasourceHyperVDvdRead okClient blankData).calls = [] :=
  ⟨(missing_path_validation okClient blankData rfl).2.1,
   (missing_path_validation okClient blankData rfl).2.2.2⟩

/-- The calls of the VHD read are exactly the GetVhd lookup, whether or
not it succeeds. -/
theorem vhdRead_calls (c : Client) (d : ResourceData) :
    (resourceHyperVVhdRead c d).calls = [.getVhd d.id] := by
  rcases h : c.getVhdResp with e | vhd
  · rw [resourceHyperVVhdRead, h]
  · rw [vhdRead_ok c d vhd h]

/-- The create body only appends calls after the calls of the guard. -/
theorem vhdCreateBody_calls (c : Client) (d : ResourceData) (path : String)
    (calls0 : List Call) :
    ∃ rest, (vhdCreateBody c d path calls0).calls = calls0 ++ rest := by
  rw [vhdCreateBody]
  rcases h : c.createOrUpdateVhdResp with _ | e
  · dsimp only
    split
    · rcases h2 : c.resizeVhdResp with _ | e2
      · dsimp only
        exact ⟨[createOrUpdateVhdCall d path,
                .resizeVhd path (uint64 (getInt d.attrs "size")), .getVhd path],
          by simp [vhdCreateFinish, vhdRead_calls]⟩
      · exact ⟨[createOrUpdateVhdCall d path,
                .resizeVhd path (uint64 (getInt d.attrs "size"))], rfl⟩
    · exact ⟨[createOrUpdateVhdCall d path, .getVhd path],
        by simp [vhdCreateFinish, vhdRead_calls]⟩
  · exact ⟨[createOrUpdateVhdCall d path], rfl⟩

/-- C9: for a new VHD resource, create calls VhdExists first; when the
check reports an existing vhd, create returns the already-exists error
and issues no further client calls (no CreateOrUpdateVhd, no
ResizeVhd). -/
theorem vhd_create_existing_guard (c : Client) (d : ResourceData) (p : String)
    (hnew : d.isNew = true) (hp : getOkStr d.attrs "path" = some p) :
    ((resourceHyperVVhdCreate c d).calls.head? = some (.vhdExists p)) ∧
    (∀ r, c.vhdExistsResp = .ok r → r.Exists = true →
       (resourceHyperVVhdCreate c d).calls = [.vhdExists p] ∧
       (resourceHyperVVhdCreate c d).diags = some (.fromErr (alreadyExistsError p))) := by
  rw [resourceHyperVVhdCreate, hp]
  dsimp only
  rw [hnew]
  constructor
  · rcases h : c.vhdExistsResp with e | r
    · simp
    · rcases hr : r.Exists
      · simp only [if_true]
        obtain ⟨rest, hrest⟩ := vhdCreateBody_calls c d p [.vhdExists p]
        simp [hr, hrest]
      · simp [hr]
  · intro r h hr
    simp [h, hr]

/-- A client oracle whose VhdExists check reports an existing vhd. -/
def existsTrueClient : Client :=
  ⟨.ok sampleVhd, .ok ⟨true⟩, none, none, none, none, .ok sampleDvd, none⟩

/-- Witness for C9: with the check reporting an existing vhd, create
stops after the single VhdExists call. -/
theorem vhd_create_existing_guard_witness :
    (resourceHyperVVhdCreate existsTrueClient baseData).calls =
        [.vhdExists "C:\\data\\disk.vhdx"] ∧
    (resourceHyperVVhdCreate existsTrueClient baseData).diags =
        some (.fromErr (alreadyExistsError "C:\\data\\disk.vhdx")) :=
  (vhd_create_existing_guard existsTrueClient baseData "C:\\data\\disk.vhdx"
      rfl (by decide)).2 ⟨true⟩ rfl rfl

/-- A ResourceData for an existing, unchanged-size vhd whose update was
triggered by a vhd_type change only. -/
def staleUpdateData : ResourceData :=
  ⟨"C:\\data\\disk.vhdx",
   setAll emptyAttrs
     [("path", .str "C:\\data\\disk.vhdx"), ("size", .int 4096), ("exists", .bool true)],
   false, ["vhd_type"]⟩

/-- A client oracle whose CreateOrUpdateVhd call fails. -/
def failingCreateClient : Client :=
  ⟨.ok sampleVhd, .ok ⟨false⟩, some ⟨"RemoteScriptFailure", "create failed"⟩,
   none, none, none, .ok sampleDvd, none⟩

/-- Counterexample for C4: the claim's iff fails on the code.  In an
update with size=4096 > 0 and empty parent_path but exists=true and no
size change, no ResizeVhd call is issued even though every client call
succeeds; and in a create with size > 0 and empty parent_path whose
CreateOrUpdateVhd call fails, no ResizeVhd call is issued either. -/
theorem vhd_resize_claim_counterexample :
    ((0 < uint64 (getInt staleUpdateData.attrs "size") ∧
        getStr staleUpdateData.attrs "parent_path" = "") ∧
     (resourceHyperVVhdUpdate okClient staleUpdateData).calls.any Call.isResizeVhd = false) ∧
    ((0 < uint64 (getInt baseData.attrs "size") ∧
        getStr baseData.attrs "parent_path" = "") ∧
     (resourceHyperVVhdCreate failingCreateClient baseData).calls.any Call.isResizeVhd = false) ∧
    ¬((resourceHyperVVhdUpdate okClient staleUpdateData).calls.any Call.isResizeVhd = true ↔
        (0 < uint64 (getInt staleUpdateData.attrs "size") ∧
         getStr staleUpdateData.attrs "parent_path" = "")) := by
  decide

/-- Resize decision of the create body: with the create call
successful, ResizeVhd is issued exactly when size > 0 and parent_path
is empty. -/
theorem vhdCreateBody_resize_iff (c : Client) (d : ResourceData) (path : String)
    (calls0 : List Call) (h0 : calls0.any Call.isResizeVhd = false)
    (hcreate : c.createOrUpdateVhdResp = none) :
    ((vhdCreateBody c d path calls0).calls.any Call.isResizeVhd = true ↔
      (0 < uint64 (getInt d.attrs "size") ∧ getStr d.attrs "parent_path" = "")) := by
  rw [vhdCreateBody, hcreate]
  dsimp only
  split
  case isTrue hcond =>
    rcases h2 : c.resizeVhdResp with _ | e2 <;>
      simp [vhdCreateFinish, vhdRead_calls, h0, Call.isResizeVhd, hcond]
  case isFalse hcond =>
    simp [vhdCreateFinish, vhdRead_calls, h0, Call.isResizeVhd,
      createOrUpdateVhdCall, hcond]

/-- Resize decision of the whole create: guard hypotheses let the flow
reach the create body. -/
theorem vhdCreate_resize_iff (c : Client) (d : ResourceData) (p : String)
    (hp : getOkStr d.attrs "path" = some p)
    (hnew : d.isNew = true → c.vhdExistsResp = .ok ⟨false⟩)
    (hcreate : c.createOrUpdateVhdResp = none) :
    ((resourceHyperVVhdCreate c d).calls.any Call.isResizeVhd = true ↔
      (0 < uint64 (getInt d.attrs "size") ∧ getStr d.attrs "parent_path" = "")) := by
  rw [resourceHyperVVhdCreate, hp]
  dsimp only
  rcases hn : d.isNew
  · rw [if_neg (by simp)]
    exact vhdCreateBody_resize_iff c d p [] rfl hcreate
  · rw [if_pos rfl, hnew hn]
    dsimp only
    exact vhdCreateBody_resize_iff c d p [.vhdExists p] rfl hcreate

/-- Resize decision of the update tail: ResizeVhd is issued exactly
when size > 0, parent_path is empty, and exists=false or size
changed. -/
theorem vhdUpdateResizeAndRead_resize_iff (c : Client) (d : ResourceData)
    (calls1 : List Call) (h1 : calls1.any Call.isResizeVhd = false) :
    ((vhdUpdateResizeAndRead c d calls1).calls.any Call.isResizeVhd = true ↔
      (0 < uint64 (getInt d.attrs "size") ∧ getStr d.attrs "parent_path" = "" ∧
       (getBool d.attrs "exists" = false ∨ d.hasChange "size" = true))) := by
  rw [vhdUpdateResizeAndRead]
  dsimp only
  split
  case isTrue hcond =>
    split
    case isTrue hinner =>
      have hC : getBool d.attrs "exists" = false ∨ d.hasChange "size" = true := by
        simpa using hinner
      rcases h2 : c.resizeVhdResp with _ | e2 <;>
        exact iff_of_true (by simp [vhdRead_calls, Call.isResizeVhd])
          ⟨hcond.1, hcond.2, hC⟩
    case isFalse hinner =>
      apply iff_of_false
      · simp [vhdRead_calls, h1, Call.isResizeVhd]
      · rintro ⟨hA, hB, hC⟩
        apply hinner
        rcases hC with hC | hC <;> simp [hC]
  case isFalse hcond =>
    apply iff_of_false
    · simp [vhdRead_calls, h1, Call.isResizeVhd]
    · rintro ⟨hA, hB, hC⟩
      exact hcond ⟨hA, hB⟩

/-- Resize decision of the whole update. -/
theorem vhdUpdate_resize_iff (c : Client) (d : ResourceData)
    (hcreate : c.createOrUpdateVhdResp = none) :
    ((resourceHyperVVhdUpdate c d).calls.any Call.isResizeVhd = true ↔
      (0 < uint64 (getInt d.attrs "size") ∧ getStr d.attrs "parent_path" = "" ∧
       (getBool d.attrs "exists" = false ∨ d.hasChange "size" = true))) := by
  rw [resourceHyperVVhdUpdate]
  split
  · simp only [hcreate]
    exact vhdUpdateResizeAndRead_resize_iff c d [createOrUpdateVhdCall d d.id]
      (by simp [Call.isResizeVhd, createOrUpdateVhdCall])
  · exact vhdUpdateResizeAndRead_resize_iff c d [] rfl

/-- The create body when the resize condition fails: the create call is
issued and no ResizeVhd call follows, whether or not the create call
succeeds. -/
theorem vhdCreateBody_create_no_resize (c : Client) (d : ResourceData) (path : String)
    (calls0 : List Call)
    (h0c : calls0.any Call.isCreateOrUpdateVhd = false)
    (h0r : calls0.any Call.isResizeVhd = false)
    (hcond : ¬(0 < uint64 (getInt d.attrs "size") ∧ getStr d.attrs "parent_path" = "")) :
    (vhdCreateBody c d path calls0).calls.any Call.isCreateOrUpdateVhd = true ∧
    (vhdCreateBody c d path calls0).calls.any Call.isResizeVhd = false := by
  rw [vhdCreateBody]
  rcases h : c.createOrUpdateVhdResp with _ | e
  · dsimp only
    rw [if_neg hcond]
    constructor <;>
      simp [vhdCreateFinish, vhdRead_calls, h0c, h0r,
        Call.isCreateOrUpdateVhd, Call.isResizeVhd, createOrUpdateVhdCall]
  · constructor <;>
      simp [h0c, h0r, Call.isCreateOrUpdateVhd, Call.isResizeVhd, createOrUpdateVhdCall]

/-- C4 (amended): in VHD create, provided the new-resource existence
check reports no existing vhd and the CreateOrUpdateVhd call succeeds,
ResizeVhd is issued iff size > 0 and parent_path is empty; in VHD
update, provided the CreateOrUpdateVhd call (when issued) succeeds,
ResizeVhd is issued iff size > 0, parent_path is empty, and the vhd
does not exist or size changed; and a create with size=0 and a
non-empty parent_path performs the create call and no ResizeVhd
call. -/
theorem vhd_resize_follow_up_condition :
    (∀ (c : Client) (d : ResourceData) (p : String),
       getOkStr d.attrs "path" = some p →
       (d.isNew = true → c.vhdExistsResp = .ok ⟨false⟩) →
       c.createOrUpdateVhdResp = none →
       ((resourceHyperVVhdCreate c d).calls.any Call.isResizeVhd = true ↔
         (0 < uint64 (getInt d.attrs "size") ∧ getStr d.attrs "parent_path" = ""))) ∧
    (∀ (c : Client) (d : ResourceData),
       c.createOrUpdateVhdResp = none →
       ((resourceHyperVVhdUpdate c d).calls.any Call.isResizeVhd = true ↔
         (0 < uint64 (getInt d.attrs "size") ∧ getStr d.attrs "parent_path" = "" ∧
          (getBool d.attrs "exists" = false ∨ d.hasChange "size" = true)))) ∧
    (∀ (c : Client) (d : ResourceData) (p : String),
       getOkStr d.attrs "path" = some p →
       (d.isNew = true → c.vhdExistsResp = .ok ⟨false⟩) →
       getInt d.attrs "size" = 0 → getStr d.attrs "parent_path" ≠ "" →
       ((resourceHyperVVhdCreate c d).calls.any Call.isCreateOrUpdateVhd = true ∧
        (resourceHyperVVhdCreate c d).calls.any Call.isResizeVhd = false)) := by
  refine ⟨fun c d p hp hnew hcreate => vhdCreate_resize_iff c d p hp hnew hcreate,
          fun c d hcreate => vhdUpdate_resize_iff c d hcreate,
          fun c d p hp hnew hsz hpp => ?_⟩
  have hcond : ¬(0 < uint64 (getInt d.attrs "size") ∧
      getStr d.attrs "parent_path" = "") := fun hx => hpp hx.2
  rw [resourceHyperVVhdCreate, hp]
  dsimp only
  rcases hn : d.isNew
  · rw [if_neg (by simp)]
    exact vhdCreateBody_create_no_resize c d p [] rfl rfl hcond
  · rw [if_pos rfl, hnew hn]
    dsimp only
    exact vhdCreateBody_create_no_resize c d p [.vhdExists p] rfl rfl hcond

/-- A ResourceData for creating a differencing disk: no size, a
parent_path. -/
def diffCreateData : ResourceData :=
  ⟨"C:\\data\\child.vhdx",
   setAll emptyAttrs
     [("path", .str "C:\\data\\child.vhdx"),
      ("parent_path", .str "C:\\data\\parent.vhdx")],
   true, []⟩

/-- Witness for C4 (amended): concrete instances of all three parts. -/
theorem vhd_resize_follow_up_condition_witness :
    ((resourceHyperVVhdCreate okClient baseData).calls.any Call.isResizeVhd = true ↔
      (0 < uint64 (getInt baseData.attrs "size") ∧
       getStr baseData.attrs "parent_path" = "")) ∧
    ((resourceHyperVVhdUpdate okClient staleUpdateData).calls.any Call.isResizeVhd = true ↔
      (0 < uint64 (getInt staleUpdateData.attrs "size") ∧
       getStr staleUpdateData.attrs "parent_path" = "" ∧
       (getBool staleUpdateData.attrs "exists" = false ∨
        staleUpdateData.hasChange "size" = true))) ∧
    ((resourceHyperVVhdCreate okClient diffCreateData).calls.any Call.isCreateOrUpdateVhd = true ∧
     (resourceHyperVVhdCreate okClient diffCreateData).calls.any Call.isResizeVhd = false) :=
  ⟨vhd_resize_follow_up_condition.1 okClient baseData "C:\\data\\disk.vhdx"
      (by decide) (fun _ => rfl) rfl,
   vhd_resize_follow_up_condition.2.1 okClient staleUpdateData rfl,
   vhd_resize_follow_up_condition.2.2 okClient diffCreateData "C:\\data\\child.vhdx"
      (by decide) (fun _ => rfl) (by decide) (by decide)⟩

/-- Error propagation shape of one facade operation: every client call
before the last one succeeded, no client call is repeated, and when the
last call errored the operation returns that error as a diagnostic with
its classification unchanged. -/
def propagatesClientErrors (op : Client → ResourceData → OpResult) : Prop :=
  ∀ (c : Client) (d : ResourceData),
    (∀ call ∈ (op c d).calls.dropLast, callResp c call = none) ∧
    (op c d).calls.Nodup ∧
    (∀ last e, (op c d).calls.getLast? = some last → callResp c last = some e →
       ∃ e2, (op c d).diags = some (.fromErr e2) ∧ e2.kind = e.kind)

/-- resourceHyperVVhdRead propagates client errors. -/
theorem propagates_vhdRead : propagatesClientErrors resourceHyperVVhdRead := by
  intro c d
  rcases h : c.getVhdResp with e | vhd
  · rw [resourceHyperVVhdRead, h]
    refine ⟨by simp, by simp, ?_⟩
    intro last e2 hlast hresp
    simp at hlast
    subst hlast
    simp [callResp, h] at hresp
    exact ⟨e, by simp [hresp]⟩
  · rw [vhdRead_ok c d vhd h]
    refine ⟨by simp, by simp, ?_⟩
    intro last e2 hlast hresp
    simp at hlast
    subst hlast
    simp [callResp, h] at hresp

/-- resourceHyperVVhdDelete propagates client errors. -/
theorem propagates_vhdDelete : propagatesClientErrors resourceHyperVVhdDelete := by
  intro c d
  rw [resourceHyperVVhdDelete]
  rcases h : c.deleteVhdResp with _ | e
  · refine ⟨by simp, by simp, ?_⟩
    intro last e2 hlast hresp
    simp at hlast
    subst hlast
    simp [callResp, h] at hresp
  · refine ⟨by simp, by simp, ?_⟩
    intro last e2 hlast hresp
    simp at hlast
    subst hlast
    simp [callResp, h] at hresp
    exact ⟨e, by simp [hresp]⟩

/-- Explicit form of the create tail. -/
theorem vhdCreateFinish_eq (c : Client) (d : ResourceData) (path : String)
    (calls : List Call) :
    vhdCreateFinish c d path calls =
      ⟨(resourceHyperVVhdRead c { d with id := path }).diags,
       (resourceHyperVVhdRead c { d with id := path }).d,
       calls ++ [.getVhd path],
       (resourceHyperVVhdRead c { d with id := path }).sets⟩ := by
  rw [vhdCreateFinish]
  have h := vhdRead_calls c { d with id := path }
  simp at h
  simp [h]

/-- The create body propagates client errors, given a prefix of
succeeded VhdExists calls. -/
theorem vhdCreateBody_propagates (c : Client) (d : ResourceData) (path : String)
    (calls0 : List Call)
    (h0 : ∀ call ∈ calls0, callResp c call = none)
    (hvx : ∀ call ∈ calls0, ∃ q, call = Call.vhdExists q)
    (hn0 : calls0.Nodup) :
    (∀ call ∈ (vhdCreateBody c d path calls0).calls.dropLast, callResp c call = none) ∧
    (vhdCreateBody c d path calls0).calls.Nodup ∧
    (∀ last e, (vhdCreateBody c d path calls0).calls.getLast? = some last →
       callResp c last = some e →
       ∃ e2, (vhdCreateBody c d path calls0).diags = some (.fromErr e2) ∧
         e2.kind = e.kind) := by
  have hdj : ∀ (L : List Call), (∀ x ∈ L, ∀ q, x ≠ Call.vhdExists q) →
      List.Disjoint calls0 L := by
    intro L hL x hx hxL
    obtain ⟨q, rfl⟩ := hvx x hx
    exact hL _ hxL q rfl
  have hreadDiag : ∀ e3, c.getVhdResp = .error e3 →
      (resourceHyperVVhdRead c { d with id := path }).diags = some (.fromErr e3) := by
    intro e3 h3
    rw [resourceHyperVVhdRead, h3]
  have hreadDiagOk : ∀ vhd, c.getVhdResp = .ok vhd →
      (resourceHyperVVhdRead c { d with id := path }).diags = none := by
    intro vhd h3
    rw [vhdRead_ok c _ vhd h3]
  rw [vhdCreateBody]
  rcases h : c.createOrUpdateVhdResp with _ | e
  · dsimp only
    split
    case isTrue hcond =>
      rcases h2 : c.resizeVhdResp with _ | e2
      · dsimp only
        rw [vhdCreateFinish_eq]
        refine ⟨?_, ?_, ?_⟩
        · intro call hcall
          simp [List.append_assoc] at hcall
          rcases hcall with hcall | rfl | rfl
          · exact h0 call hcall
          · simp [callResp, createOrUpdateVhdCall, h]
          · simp [callResp, h2]
        · dsimp only
          rw [List.append_assoc]
          refine List.Nodup.append hn0 ?_ (hdj _ ?_)
          · simp [createOrUpdateVhdCall]
          · intro x hx q
            simp at hx
            rcases hx with rfl | rfl | rfl <;> simp [createOrUpdateVhdCall]
        · intro last e4 hlast hresp
          simp [List.append_assoc] at hlast
          subst hlast
          rcases h3 : c.getVhdResp with e3 | vhd
          · simp [callResp, h3] at hresp
            exact ⟨e3, by simp [hreadDiag e3 h3, hresp]⟩
          · simp [callResp, h3] at hresp
      · refine ⟨?_, ?_, ?_⟩
        · intro call hcall
          simp at hcall
          rcases hcall with hcall | rfl
          · exact h0 call hcall
          · simp [callResp, createOrUpdateVhdCall, h]
        · refine List.Nodup.append hn0 ?_ (hdj _ ?_)
          · simp [createOrUpdateVhdCall]
          · intro x hx q
            simp at hx
            rcases hx with rfl | rfl <;> simp [createOrUpdateVhdCall]
        · intro last e4 hlast hresp
          simp at hlast
          subst hlast
          simp [callResp, h2] at hresp
          exact ⟨e2, by simp [hresp]⟩
    case isFalse hcond =>
      rw [vhdCreateFinish_eq]
      refine ⟨?_, ?_, ?_⟩
      · intro call hcall
        simp [List.append_assoc] at hcall
        rcases hcall with hcall | rfl
        · exact h0 call hcall
        · simp [callResp, createOrUpdateVhdCall, h]
      · dsimp only
        rw [List.append_assoc]
        refine List.Nodup.append hn0 ?_ (hdj _ ?_)
        · simp [createOrUpdateVhdCall]
        · intro x hx q
          simp at hx
          rcases hx with rfl | rfl <;> simp [createOrUpdateVhdCall]
      · intro last e4 hlast hresp
        simp [List.append_assoc] at hlast
        subst hlast
        rcases h3 : c.getVhdResp with e3 | vhd
        · simp [callResp, h3] at hresp
          exact ⟨e3, by simp [hreadDiag e3 h3, hresp]⟩
        · simp [callResp, h3] at hresp
  · refine ⟨?_, ?_, ?_⟩
    · intro call hcall
      simp at hcall
      exact h0 call hcall
    · refine List.Nodup.append hn0 (by simp) (hdj _ ?_)
      intro x hx q
      simp at hx
      subst hx
      simp [createOrUpdateVhdCall]
    · intro last e4 hlast hresp
      simp at hlast
      subst hlast
      simp [callResp, createOrUpdateVhdCall, h] at hresp
      exact ⟨e, by simp [hresp]⟩

/-- resourceHyperVVhdCreate propagates client errors. -/
theorem propagates_vhdCreate : propagatesClientErrors resourceHyperVVhdCreate := by
  intro c d
  rw [resourceHyperVVhdCreate]
  rcases hgo : getOkStr d.attrs "path" with _ | p
  · exact ⟨by simp, by simp, by simp⟩
  · dsimp only
    rcases hn : d.isNew
    · rw [if_neg (by simp)]
      exact vhdCreateBody_propagates c d p [] (by simp) (by simp) (by simp)
    · rw [if_pos rfl]
      rcases hx : c.vhdExistsResp with ex | r
      · refine ⟨by simp, by simp, ?_⟩
        intro last e hlast hresp
        simp at hlast
        subst hlast
        simp [callResp, hx] at hresp
        exact ⟨wrapCheckingExisting p ex, by simp [hresp, wrapCheckingExisting]⟩
      · dsimp only
        rcases hrx : r.Exists
        · rw [if_neg (by simp)]
          refine vhdCreateBody_propagates c d p [.vhdExists p] ?_ (by simp) (by simp)
          intro call hcall
          simp at hcall
          subst hcall
          simp [callResp, hx]
        · rw [if_pos rfl]
          refine ⟨by simp, by simp, ?_⟩
          intro last e hlast hresp
          simp at hlast
          subst hlast
          simp [callResp, hx] at hresp

/-- The update tail propagates client errors, given a prefix of
succeeded CreateOrUpdateVhd calls. -/
theorem vhdUpdateResizeAndRead_propagates (c : Client) (d : ResourceData)
    (calls1 : List Call)
    (h1 : ∀ call ∈ calls1, callResp c call = none)
    (hcu : ∀ call ∈ calls1, call.isCreateOrUpdateVhd = true)
    (hn1 : calls1.Nodup) :
    (∀ call ∈ (vhdUpdateResizeAndRead c d calls1).calls.dropLast, callResp c call = none) ∧
    (vhdUpdateResizeAndRead c d calls1).calls.Nodup ∧
    (∀ last e, (vhdUpdateResizeAndRead c d calls1).calls.getLast? = some last →
       callResp c last = some e →
       ∃ e2, (vhdUpdateResizeAndRead c d calls1).diags = some (.fromErr e2) ∧
         e2.kind = e.kind) := by
  have hdj : ∀ (L : List Call), (∀ x ∈ L, x.isCreateOrUpdateVhd = false) →
      List.Disjoint calls1 L := by
    intro L hL x hx hxL
    have hx1 := hcu x hx
    rw [hL x hxL] at hx1
    exact Bool.false_ne_true hx1
  have hreadDiag : ∀ e3, c.getVhdResp = .error e3 →
      (resourceHyperVVhdRead c d).diags = some (.fromErr e3) := by
    intro e3 h3
    rw [resourceHyperVVhdRead, h3]
  rw [vhdUpdateResizeAndRead]
  dsimp only
  split
  case isTrue hcond =>
    split
    case isTrue hinner =>
      rcases h2 : c.resizeVhdResp with _ | e2
      · refine ⟨?_, ?_, ?_⟩
        · intro call hcall
          simp [vhdRead_calls] at hcall
          rcases hcall with hcall | rfl
          · exact h1 call hcall
          · simp [callResp, h2]
        · simp only [vhdRead_calls, List.append_assoc]
          refine List.Nodup.append hn1 ?_ (hdj _ ?_)
          · simp
          · intro x hx
            simp at hx
            rcases hx with rfl | rfl <;> simp [Call.isCreateOrUpdateVhd]
        · intro last e4 hlast hresp
          simp [vhdRead_calls] at hlast
          subst hlast
          rcases h3 : c.getVhdResp with e3 | vhd
          · simp [callResp, h3] at hresp
            exact ⟨e3, by simp [hreadDiag e3 h3, hresp]⟩
          · simp [callResp, h3] at hresp
      · refine ⟨?_, ?_, ?_⟩
        · intro call hcall
          simp at hcall
          exact h1 call hcall
        · refine List.Nodup.append hn1 (by simp) (hdj _ ?_)
          intro x hx
          simp at hx
          subst hx
          simp [Call.isCreateOrUpdateVhd]
        · intro last e4 hlast hresp
          simp at hlast
          subst hlast
          simp [callResp, h2] at hresp
          exact ⟨e2, by simp [hresp]⟩
    case isFalse hinner =>
      refine ⟨?_, ?_, ?_⟩
      · intro call hcall
        simp [vhdRead_calls] at hcall
        exact h1 call hcall
      · simp only [vhdRead_calls]
        refine List.Nodup.append hn1 (by simp) (hdj _ ?_)
        intro x hx
        simp at hx
        subst hx
        simp [Call.isCreateOrUpdateVhd]
      · intro last e4 hlast hresp
        simp [vhdRead_calls] at hlast
        subst hlast
        rcases h3 : c.getVhdResp with e3 | vhd
        · simp [callResp, h3] at hresp
          exact ⟨e3, by simp [hreadDiag e3 h3, hresp]⟩
        · simp [callResp, h3] at hresp
  case isFalse hcond =>
    refine ⟨?_, ?_, ?_⟩
    · intro call hcall
      simp [vhdRead_calls] at hcall
      exact h1 call hcall
    · simp only [vhdRead_calls]
      refine List.Nodup.append hn1 (by simp) (hdj _ ?_)
      intro x hx
      simp at hx
      subst hx
      simp [Call.isCreateOrUpdateVhd]
    · intro last e4 hlast hresp
      simp [vhdRead_calls] at hlast
      subst hlast
      rcases h3 : c.getVhdResp with e3 | vhd
      · simp [callResp, h3] at hresp
        exact ⟨e3, by simp [hreadDiag e3 h3, hresp]⟩
      · simp [callResp, h3] at hresp

/-- resourceHyperVVhdUpdate propagates client errors. -/
theorem propagates_vhdUpdate : propagatesClientErrors resourceHyperVVhdUpdate := by
  intro c d
  rw [resourceHyperVVhdUpdate]
  split
  · rcases h : c.createOrUpdateVhdResp with _ | e
    · dsimp only
      refine vhdUpdateResizeAndRead_propagates c d [createOrUpdateVhdCall d d.id] ?_ ?_ (by simp)
      · intro x hx
        simp at hx
        subst hx
        simp [callResp, createOrUpdateVhdCall, h]
      · intro x hx
        simp at hx
        subst hx
        simp [Call.isCreateOrUpdateVhd, createOrUpdateVhdCall]
    · refine ⟨by simp, by simp, ?_⟩
      intro last e4 hlast hresp
      simp at hlast
      subst hlast
      simp [callResp, createOrUpdateVhdCall, h] at hresp
      exact ⟨e, by simp [hresp]⟩
  · exact vhdUpdateResizeAndRead_propagates c d [] (by simp) (by simp) (by simp)

/-- resourceHyperVDvdCreate propagates client errors. -/
theorem propagates_dvdCreate : propagatesClientErrors resourceHyperVDvdCreate := by
  intro c d
  rw [resourceHyperVDvdCreate]
  rcases h : c.createDvdResp with _ | e
  · refine ⟨by simp, by simp, ?_⟩
    intro last e2 hlast hresp
    simp at hlast
    subst hlast
    simp [callResp, h] at hresp
  · refine ⟨by simp, by simp, ?_⟩
    intro last e2 hlast hresp
    simp at hlast
    subst hlast
    simp [callResp, h] at hresp
    exact ⟨e, by simp [hresp]⟩

/-- resourceHyperVDvdRead propagates client errors. -/
theorem propagates_dvdRead : propagatesClientErrors resourceHyperVDvdRead := by
  intro c d
  rcases h : c.getDvdResp with e | dvd
  · rw [resourceHyperVDvdRead, h]
    refine ⟨by simp, by simp, ?_⟩
    intro last e2 hlast hresp
    simp at hlast
    subst hlast
    simp [callResp, h] at hresp
    exact ⟨e, by simp [hresp]⟩
  · rw [dvdRead_ok c d dvd h]
    refine ⟨by simp, by simp, ?_⟩
    intro last e2 hlast hresp
    simp at hlast
    subst hlast
    simp [callResp, h] at hresp

/-- resourceHyperVDvdDelete propagates client errors. -/
theorem propagates_dvdDelete : propagatesClientErrors resourceHyperVDvdDelete := by
  intro c d
  rw [resourceHyperVDvdDelete]
  rcases h : c.deleteDvdResp with _ | e
  · refine ⟨by simp, by simp, ?_⟩
    intro last e2 hlast hresp
    simp at hlast
    subst hlast
    simp [callResp, h] at hresp
  · refine ⟨by simp, by simp, ?_⟩
    intro last e2 hlast hresp
    simp at hlast
    subst hlast
    simp [callResp, h] at hresp
    exact ⟨e, by simp [hresp]⟩

/-- datasourceHyperVDvdRead propagates client errors. -/
theorem propagates_datasourceDvdRead : propagatesClientErrors datasourceHyperVDvdRead := by
  intro c d
  rcases hgo : getOkStr d.attrs "path" with _ | p
  · rw [datasourceHyperVDvdRead, hgo]
    exact ⟨by simp, by simp, by simp⟩
  · rcases h : c.getVhdResp with e | vhd
    · rw [datasourceHyperVDvdRead, hgo, h]
      refine ⟨by simp, by simp, ?_⟩
      intro last e2 hlast hresp
      simp at hlast
      subst hlast
      simp [callResp, h] at hresp
      exact ⟨e, by simp [hresp]⟩
    · rw [datasourceDvdRead_ok c d p vhd hgo h]
      refine ⟨by simp, by simp, ?_⟩
      intro last e2 hlast hresp
      simp at hlast
      subst hlast
      simp [callResp, h] at hresp

/-- C6: for every facade operation (VHD create/read/update/delete, DVD
create/read/delete, DVD data-source read), a failing client call is the
operation's last call (no retry, no further client calls) and its error
is returned as a diagnostic with its classification unchanged. -/
theorem client_errors_propagate_unchanged :
    propagatesClientErrors resourceHyperVVhdCreate ∧
    propagatesClientErrors resourceHyperVVhdRead ∧
    propagatesClientErrors resourceHyperVVhdUpdate ∧
    propagatesClientErrors resourceHyperVVhdDelete ∧
    propagatesClientErrors resourceHyperVDvdCreate ∧
    propagatesClientErrors resourceHyperVDvdRead ∧
    propagatesClientErrors resourceHyperVDvdDelete ∧
    propagatesClientErrors datasourceHyperVDvdRead :=
  ⟨propagates_vhdCreate, propagates_vhdRead, propagates_vhdUpdate,
   propagates_vhdDelete, propagates_dvdCreate, propagates_dvdRead,
   propagates_dvdDelete, propagates_datasourceDvdRead⟩

/-- A client oracle whose DeleteVhd call fails with a transport
failure. -/
def failingDeleteClient : Client :=
  ⟨.ok sampleVhd, .ok ⟨false⟩, none, none,
   some ⟨"TransportFailure", "connection reset"⟩, none, .ok sampleDvd, none⟩

/-- Witness for C6: a concrete failing DeleteVhd call surfaces as a
diagnostic carrying the same classification. -/
theorem client_errors_propagate_unchanged_witness :
    ∃ e2, (resourceHyperVVhdDelete failingDeleteClient baseData).diags =
        some (.fromErr e2) ∧ e2.kind = "TransportFailure" := by
  obtain ⟨e2, hd, hk⟩ :=
    ((client_errors_propagate_unchanged.2.2.2.1 failingDeleteClient baseData).2.2
      (.deleteVhd baseData.id) ⟨"TransportFailure", "connection reset"⟩
      (by decide) (by decide))
  exact ⟨e2, hd, by rw [hk]⟩

end TerraformHyperv
